import Mathlib

/-!
Shallow embedding of `src/skyfield/starlib.py`: the `Star` class, its
constructor-time vector computation `_compute_vectors`, and the
`observe_from` projection.  Python floats are modelled as real numbers;
numpy 3x1 column vectors are modelled by the fixed-size `Vec3` record.
-/

namespace Starlib

/-- Source constant `AU_KM` (kilometres per astronomical unit). -/
def AU_KM : ℝ := 1.4959787069098932e8

/-- Source constant `ASEC2RAD` (radians per arcsecond). -/
def ASEC2RAD : ℝ := 4.848136811095359935899141e-6

/-- Source constant `DEG2RAD` (radians per degree). -/
def DEG2RAD : ℝ := 0.017453292519943296

/-- Source constant `C` (speed of light, metres per second). -/
def C : ℝ := 299792458.0

/-- Source constant `C_AUDAY` (speed of light, AU per day). -/
def C_AUDAY : ℝ := 173.1446326846693

/-- Fixed-size 3-vector of reals, modelling the numpy arrays of shape (3, 1)
built by `_compute_vectors` and manipulated by `observe_from`. -/
@[ext]
structure Vec3 where
  x : ℝ
  y : ℝ
  z : ℝ

/-- Componentwise addition, modelling numpy `+` on 3x1 arrays. -/
def Vec3.add (a b : Vec3) : Vec3 := ⟨a.x + b.x, a.y + b.y, a.z + b.z⟩

/-- Componentwise subtraction, modelling numpy `-` on 3x1 arrays. -/
def Vec3.sub (a b : Vec3) : Vec3 := ⟨a.x - b.x, a.y - b.y, a.z - b.z⟩

/-- Scalar multiple, modelling numpy `vector * scalar`. -/
def Vec3.scale (a : Vec3) (c : ℝ) : Vec3 := ⟨a.x * c, a.y * c, a.z * c⟩

/-- Dot product; `(vector * vector).sum(axis=0)` in the source is
`Vec3.dot v v`. -/
def Vec3.dot (a b : Vec3) : ℝ := a.x * b.x + a.y * b.y + a.z * b.z

/-- Effective parallax: the sentinel substitution at the top of
`_compute_vectors` (`if parallax <= 0.0: parallax = 1.0e-6`). -/
noncomputable def peff (parallax : ℝ) : ℝ :=
  if parallax ≤ 0 then 1.0e-6 else parallax

/-- Denominator of the Doppler factor: `1.0 - self.radial_velocity / C * 1000.0`. -/
noncomputable def dopplerDenom (radial_velocity : ℝ) : ℝ :=
  1.0 - radial_velocity / C * 1000.0

/-- Doppler factor `k = 1.0 / (1.0 - self.radial_velocity / C * 1000.0)`. -/
noncomputable def kFactor (radial_velocity : ℝ) : ℝ :=
  1.0 / dopplerDenom radial_velocity

/-- Radial velocity in AU/day:
`rvl = self.radial_velocity * 86400.0 / AU_KM * k`. -/
noncomputable def rvlOf (radial_velocity : ℝ) : ℝ :=
  radial_velocity * 86400.0 / AU_KM * kFactor radial_velocity

/-- The body of `Star._compute_vectors`: from the six catalog scalars to the
cached `(position, velocity)` pair, line for line from the source. -/
noncomputable def computeVectors (ra dec pm_ra pm_dec parallax radial_velocity : ℝ) :
    Vec3 × Vec3 :=
  let parallax := peff parallax
  let dist := 1.0 / Real.sin (parallax * 1.0e-3 * ASEC2RAD)
  let r := ra * 15.0 * DEG2RAD
  let d := dec * DEG2RAD
  let cra := Real.cos r
  let sra := Real.sin r
  let cdc := Real.cos d
  let sdc := Real.sin d
  let position : Vec3 := ⟨dist * cdc * cra, dist * cdc * sra, dist * sdc⟩
  let k := kFactor radial_velocity
  let pmr := pm_ra / (parallax * 365.25) * k
  let pmd := pm_dec / (parallax * 365.25) * k
  let rvl := rvlOf radial_velocity
  let velocity : Vec3 :=
    ⟨-(pmr * sra) - pmd * sdc * cra + rvl * cdc * cra,
      pmr * cra - pmd * sdc * sra + rvl * cdc * sra,
      pmd * cdc + rvl * sdc⟩
  (position, velocity)

/-- The `Star` object: the six stored catalog scalars plus the two vectors
cached by `_compute_vectors` at construction. -/
structure Star where
  ra : ℝ
  dec : ℝ
  pm_ra : ℝ
  pm_dec : ℝ
  parallax : ℝ
  radial_velocity : ℝ
  _position : Vec3
  _velocity : Vec3

/-- `Star.__init__`: store the six scalars and run `_compute_vectors` once. -/
noncomputable def Star.make (ra dec : ℝ) (pm_ra pm_dec parallax radial_velocity : ℝ) :
    Star :=
  ⟨ra, dec, pm_ra, pm_dec, parallax, radial_velocity,
    (computeVectors ra dec pm_ra pm_dec parallax radial_velocity).1,
    (computeVectors ra dec pm_ra pm_dec parallax radial_velocity).2⟩

/-- The time object carried by an observer: exposes the scalar `tdb`. -/
structure JulianDate where
  tdb : ℝ

/-- External observer consumed by `observe_from`: position (AU),
velocity (AU/day) and a `jd` time object. -/
structure Observer where
  position : Vec3
  velocity : Vec3
  jd : JulianDate

/-- Modelled from the spec: the external collaborators of `observe_from`
that are not under `src/` — the reference epoch constant `T0` from
`timescales` and the black-box scalar function `light_time_difference`
from `relativity` (light-time offset in days between two positions). -/
structure Externals where
  T0 : ℝ
  light_time_difference : Vec3 → Vec3 → ℝ

/-- Modelled from the spec: the external result-frame class `GCRS` from
`coordinates`, a plain aggregate built from (relative position, relative
velocity, epoch) and then annotated with `observer`, `distance` and
`lighttime` by `observe_from`. -/
structure GCRS where
  position : Vec3
  velocity : Vec3
  jd : JulianDate
  observer : Observer
  distance : ℝ
  lighttime : ℝ

/-- The body of `Star.observe_from`, line for line from the source,
parameterised by the external collaborators `T0` and
`light_time_difference`. -/
noncomputable def observeFrom (ext : Externals) (star : Star) (observer : Observer) :
    GCRS :=
  let position := star._position
  let velocity := star._velocity
  let jd := observer.jd
  let dt := ext.light_time_difference position observer.position
  let position := Vec3.add position (Vec3.scale velocity (ext.T0 - jd.tdb - dt))
  let vector := Vec3.sub position observer.position
  let distance := Real.sqrt (Vec3.dot vector vector)
  let lighttime := distance / C_AUDAY
  ⟨vector, Vec3.sub velocity observer.velocity, jd, observer, distance, lighttime⟩

/-- Method-call semantics of `observe_from` with the receiver's state passed
explicitly: the method body reads `self._position` and `self._velocity` and
assigns no attribute of `self`, so the post-state equals the pre-state. -/
noncomputable def observeFromCall (ext : Externals) (star : Star) (observer : Observer) :
    GCRS × Star :=
  (observeFrom ext star observer, star)

/-- State of a `Star` after a sequence of `observe_from` calls, threading the
receiver state through `observeFromCall`. -/
noncomputable def observeCalls (ext : Externals) (star : Star) (obs : List Observer) :
    Star :=
  obs.foldl (fun st o => (observeFromCall ext st o).2) star

/-- The `rvl` summands of the three velocity components of
`_compute_vectors`: `(rvl*cdc*cra, rvl*cdc*sra, rvl*sdc)` — the contribution
of the radial velocity to the cached velocity vector. -/
noncomputable def rvlTerm (ra dec radial_velocity : ℝ) : Vec3 :=
  ⟨rvlOf radial_velocity * Real.cos (dec * DEG2RAD) * Real.cos (ra * 15.0 * DEG2RAD),
    rvlOf radial_velocity * Real.cos (dec * DEG2RAD) * Real.sin (ra * 15.0 * DEG2RAD),
    rvlOf radial_velocity * Real.sin (dec * DEG2RAD)⟩

/-- The proper-motion summands of the three velocity components of
`_compute_vectors`: `(-pmr*sra - pmd*sdc*cra, pmr*cra - pmd*sdc*sra, pmd*cdc)`. -/
noncomputable def pmTerm (ra dec pm_ra pm_dec parallax radial_velocity : ℝ) : Vec3 :=
  ⟨-(pm_ra / (peff parallax * 365.25) * kFactor radial_velocity *
        Real.sin (ra * 15.0 * DEG2RAD)) -
      pm_dec / (peff parallax * 365.25) * kFactor radial_velocity *
        Real.sin (dec * DEG2RAD) * Real.cos (ra * 15.0 * DEG2RAD),
    pm_ra / (peff parallax * 365.25) * kFactor radial_velocity *
        Real.cos (ra * 15.0 * DEG2RAD) -
      pm_dec / (peff parallax * 365.25) * kFactor radial_velocity *
        Real.sin (dec * DEG2RAD) * Real.sin (ra * 15.0 * DEG2RAD),
    pm_dec / (peff parallax * 365.25) * kFactor radial_velocity *
      Real.cos (dec * DEG2RAD)⟩

lemma make_position_eq (ra dec pm_ra pm_dec parallax radial_velocity : ℝ) :
    (Star.make ra dec pm_ra pm_dec parallax radial_velocity)._position =
      ⟨1.0 / Real.sin (peff parallax * 1.0e-3 * ASEC2RAD) * Real.cos (dec * DEG2RAD) *
          Real.cos (ra * 15.0 * DEG2RAD),
        1.0 / Real.sin (peff parallax * 1.0e-3 * ASEC2RAD) * Real.cos (dec * DEG2RAD) *
          Real.sin (ra * 15.0 * DEG2RAD),
        1.0 / Real.sin (peff parallax * 1.0e-3 * ASEC2RAD) * Real.sin (dec * DEG2RAD)⟩ := rfl

lemma make_velocity_eq (ra dec pm_ra pm_dec parallax radial_velocity : ℝ) :
    (Star.make ra dec pm_ra pm_dec parallax radial_velocity)._velocity =
      ⟨-(pm_ra / (peff parallax * 365.25) * kFactor radial_velocity *
            Real.sin (ra * 15.0 * DEG2RAD)) -
          pm_dec / (peff parallax * 365.25) * kFactor radial_velocity *
            Real.sin (dec * DEG2RAD) * Real.cos (ra * 15.0 * DEG2RAD) +
          rvlOf radial_velocity * Real.cos (dec * DEG2RAD) * Real.cos (ra * 15.0 * DEG2RAD),
        pm_ra / (peff parallax * 365.25) * kFactor radial_velocity *
            Real.cos (ra * 15.0 * DEG2RAD) -
          pm_dec / (peff parallax * 365.25) * kFactor radial_velocity *
            Real.sin (dec * DEG2RAD) * Real.sin (ra * 15.0 * DEG2RAD) +
          rvlOf radial_velocity * Real.cos (dec * DEG2RAD) * Real.sin (ra * 15.0 * DEG2RAD),
        pm_dec / (peff parallax * 365.25) * kFactor radial_velocity *
            Real.cos (dec * DEG2RAD) +
          rvlOf radial_velocity * Real.sin (dec * DEG2RAD)⟩ := rfl

lemma dot_self_eq_sq (v : Vec3) : Vec3.dot v v = v.x ^ 2 + v.y ^ 2 + v.z ^ 2 := by
  simp only [Vec3.dot]
  ring

lemma velocity_zero_of_no_motion (ra dec parallax : ℝ) :
    (Star.make ra dec 0 0 parallax 0)._velocity = ⟨0, 0, 0⟩ := by
  rw [make_velocity_eq]
  norm_num [rvlOf]

lemma observeCalls_eq_self (ext : Externals) (s : Star) (l : List Observer) :
    observeCalls ext s l = s := by
  induction l generalizing s with
  | nil => rfl
  | cons o t ih => exact ih s

/-- C1: for every Star, the cached position vector is
`(dist*cdc*cra, dist*cdc*sra, dist*sdc)` with
`dist = 1/sin(p_eff*1e-3*ASEC2RAD)`, `r = ra*15*DEG2RAD`, `d = dec*DEG2RAD`,
`ASEC2RAD = 4.848136811095359935899141e-6`, `DEG2RAD = 0.017453292519943296`. -/
theorem star_c1_position_formula (ra dec pm_ra pm_dec parallax radial_velocity : ℝ) :
    (Star.make ra dec pm_ra pm_dec parallax radial_velocity)._position =
      ⟨1.0 / Real.sin (peff parallax * 1.0e-3 * ASEC2RAD) * Real.cos (dec * DEG2RAD) *
          Real.cos (ra * 15.0 * DEG2RAD),
        1.0 / Real.sin (peff parallax * 1.0e-3 * ASEC2RAD) * Real.cos (dec * DEG2RAD) *
          Real.sin (ra * 15.0 * DEG2RAD),
        1.0 / Real.sin (peff parallax * 1.0e-3 * ASEC2RAD) * Real.sin (dec * DEG2RAD)⟩ ∧
    ASEC2RAD = 4.848136811095359935899141e-6 ∧ DEG2RAD = 0.017453292519943296 :=
  ⟨rfl, rfl, rfl⟩

/-- C2: for every Star, the cached velocity vector is
`(-pmr*sra - pmd*sdc*cra + rvl*cdc*cra, pmr*cra - pmd*sdc*sra + rvl*cdc*sra,
pmd*cdc + rvl*sdc)` with `k = 1/(1 - radial_velocity/C*1000)`,
`pmr = pm_ra/(p_eff*365.25)*k`, `pmd = pm_dec/(p_eff*365.25)*k`,
`rvl = radial_velocity*86400/AU_KM*k`, `C = 299792458.0`,
`AU_KM = 1.4959787069098932e8`. -/
theorem star_c2_velocity_formula (ra dec pm_ra pm_dec parallax radial_velocity : ℝ) :
    (Star.make ra dec pm_ra pm_dec parallax radial_velocity)._velocity =
      ⟨-(pm_ra / (peff parallax * 365.25) * kFactor radial_velocity *
            Real.sin (ra * 15.0 * DEG2RAD)) -
          pm_dec / (peff parallax * 365.25) * kFactor radial_velocity *
            Real.sin (dec * DEG2RAD) * Real.cos (ra * 15.0 * DEG2RAD) +
          rvlOf radial_velocity * Real.cos (dec * DEG2RAD) * Real.cos (ra * 15.0 * DEG2RAD),
        pm_ra / (peff parallax * 365.25) * kFactor radial_velocity *
            Real.cos (ra * 15.0 * DEG2RAD) -
          pm_dec / (peff parallax * 365.25) * kFactor radial_velocity *
            Real.sin (dec * DEG2RAD) * Real.sin (ra * 15.0 * DEG2RAD) +
          rvlOf radial_velocity * Real.cos (dec * DEG2RAD) * Real.sin (ra * 15.0 * DEG2RAD),
        pm_dec / (peff parallax * 365.25) * kFactor radial_velocity *
            Real.cos (dec * DEG2RAD) +
          rvlOf radial_velocity * Real.sin (dec * DEG2RAD)⟩ ∧
    kFactor radial_velocity = 1.0 / (1.0 - radial_velocity / C * 1000.0) ∧
    rvlOf radial_velocity = radial_velocity * 86400.0 / AU_KM * kFactor radial_velocity ∧
    C = 299792458.0 ∧ AU_KM = 1.4959787069098932e8 :=
  ⟨rfl, rfl, rfl, rfl, rfl⟩

/-- C3: for every Star and observer, `observe_from` returns a bundle whose
apparent vector is `position + velocity*(T0 - jd.tdb - dt) - observer.position`
with `dt = light_time_difference(position, observer.position)`, whose distance
is the Euclidean norm of that vector, and whose lighttime is
`distance / 173.1446326846693`. -/
theorem star_c3_observe_from (ext : Externals) (s : Star) (o : Observer) :
    (observeFrom ext s o).position =
      Vec3.sub
        (Vec3.add s._position
          (Vec3.scale s._velocity
            (ext.T0 - o.jd.tdb - ext.light_time_difference s._position o.position)))
        o.position ∧
    (observeFrom ext s o).distance =
      Real.sqrt ((observeFrom ext s o).position.x ^ 2 + (observeFrom ext s o).position.y ^ 2 +
        (observeFrom ext s o).position.z ^ 2) ∧
    (observeFrom ext s o).lighttime = (observeFrom ext s o).distance / 173.1446326846693 :=
  ⟨rfl, congrArg Real.sqrt (dot_self_eq_sq ((observeFrom ext s o).position)), rfl⟩

/-- C5: at `radial_velocity = 0` the Doppler factor `k` is exactly 1, and a
Star with zero proper motion and zero radial velocity has cached velocity
exactly `(0, 0, 0)` regardless of `ra`, `dec`, `parallax`. -/
theorem star_c5_zero_motion (ra dec parallax : ℝ) :
    kFactor 0 = 1 ∧ (Star.make ra dec 0 0 parallax 0)._velocity = ⟨0, 0, 0⟩ :=
  ⟨by norm_num [kFactor, dopplerDenom], velocity_zero_of_no_motion ra dec parallax⟩

/-- C9: the six input scalars and the cached vectors of a Star are unchanged
by any number of `observe_from` calls, and the cached vectors remain exactly
the output of `_compute_vectors` on the six scalars at construction. -/
theorem star_c9_immutable (ext : Externals) (ra dec pm_ra pm_dec parallax radial_velocity : ℝ)
    (l : List Observer) :
    observeCalls ext (Star.make ra dec pm_ra pm_dec parallax radial_velocity) l =
      Star.make ra dec pm_ra pm_dec parallax radial_velocity ∧
    (observeCalls ext (Star.make ra dec pm_ra pm_dec parallax radial_velocity) l).ra = ra ∧
    (observeCalls ext (Star.make ra dec pm_ra pm_dec parallax radial_velocity) l).dec = dec ∧
    (observeCalls ext (Star.make ra dec pm_ra pm_dec parallax radial_velocity) l).pm_ra = pm_ra ∧
    (observeCalls ext (Star.make ra dec pm_ra pm_dec parallax radial_velocity) l).pm_dec =
      pm_dec ∧
    (observeCalls ext (Star.make ra dec pm_ra pm_dec parallax radial_velocity) l).parallax =
      parallax ∧
    (observeCalls ext (Star.make ra dec pm_ra pm_dec parallax radial_velocity) l).radial_velocity =
      radial_velocity ∧
    (observeCalls ext (Star.make ra dec pm_ra pm_dec parallax radial_velocity) l)._position =
      (computeVectors ra dec pm_ra pm_dec parallax radial_velocity).1 ∧
    (observeCalls ext (Star.make ra dec pm_ra pm_dec parallax radial_velocity) l)._velocity =
      (computeVectors ra dec pm_ra pm_dec parallax radial_velocity).2 := by
  have h := observeCalls_eq_self ext (Star.make ra dec pm_ra pm_dec parallax radial_velocity) l
  refine ⟨h, ?_, ?_, ?_, ?_, ?_, ?_, ?_, ?_⟩ <;> rw [h] <;> rfl

lemma sin_pos_of_lt_three {x : ℝ} (h0 : 0 < x) (h3 : x < 3) : 0 < Real.sin x :=
  Real.sin_pos_of_pos_of_lt_pi h0 (h3.trans Real.pi_gt_three)

lemma sin_lt_sin_of_small {a b : ℝ} (ha : 0 ≤ a) (hab : a < b) (hb : b ≤ 1.5) :
    Real.sin a < Real.sin b := by
  have hpi : (3:ℝ) < Real.pi := Real.pi_gt_three
  exact Real.strictMonoOn_sin (Set.mem_Icc.mpr ⟨by linarith, by linarith⟩)
    (Set.mem_Icc.mpr ⟨by linarith, by linarith⟩) hab

/-- C4: a Star built with `parallax <= 0` caches exactly the vectors of the
same Star built with `parallax = 1e-6`; for `parallax > 0` the supplied value
is used unchanged, so the distance scalar is `1/sin(parallax*1e-3*ASEC2RAD)`. -/
theorem star_c4_parallax_sentinel (ra dec pm_ra pm_dec parallax radial_velocity : ℝ) :
    (parallax ≤ 0 →
      (Star.make ra dec pm_ra pm_dec parallax radial_velocity)._position =
        (Star.make ra dec pm_ra pm_dec 1.0e-6 radial_velocity)._position ∧
      (Star.make ra dec pm_ra pm_dec parallax radial_velocity)._velocity =
        (Star.make ra dec pm_ra pm_dec 1.0e-6 radial_velocity)._velocity) ∧
    (0 < parallax →
      peff parallax = parallax ∧
      (Star.make ra dec pm_ra pm_dec parallax radial_velocity)._position =
        ⟨1.0 / Real.sin (parallax * 1.0e-3 * ASEC2RAD) * Real.cos (dec * DEG2RAD) *
            Real.cos (ra * 15.0 * DEG2RAD),
          1.0 / Real.sin (parallax * 1.0e-3 * ASEC2RAD) * Real.cos (dec * DEG2RAD) *
            Real.sin (ra * 15.0 * DEG2RAD),
          1.0 / Real.sin (parallax * 1.0e-3 * ASEC2RAD) * Real.sin (dec * DEG2RAD)⟩) := by
  constructor
  · intro h
    have hp : peff parallax = peff 1.0e-6 := by
      rw [peff, peff, if_pos h, if_neg]
      norm_num
    exact ⟨by rw [make_position_eq, make_position_eq, hp],
      by rw [make_velocity_eq, make_velocity_eq, hp]⟩
  · intro h
    have hp : peff parallax = parallax := by rw [peff, if_neg (not_le.mpr h)]
    exact ⟨hp, by rw [make_position_eq, hp]⟩

theorem star_c4_parallax_sentinel_witness :
    ((-1.0 : ℝ) ≤ 0 ∧
      ((Star.make 1 2 3 4 (-1.0) 5)._position = (Star.make 1 2 3 4 1.0e-6 5)._position ∧
        (Star.make 1 2 3 4 (-1.0) 5)._velocity = (Star.make 1 2 3 4 1.0e-6 5)._velocity)) ∧
    ((0 : ℝ) < 1000 ∧
      (peff (1000 : ℝ) = 1000 ∧
        (Star.make 1 2 3 4 (1000 : ℝ) 5)._position =
          ⟨1.0 / Real.sin ((1000 : ℝ) * 1.0e-3 * ASEC2RAD) * Real.cos ((2 : ℝ) * DEG2RAD) *
              Real.cos ((1 : ℝ) * 15.0 * DEG2RAD),
            1.0 / Real.sin ((1000 : ℝ) * 1.0e-3 * ASEC2RAD) * Real.cos ((2 : ℝ) * DEG2RAD) *
              Real.sin ((1 : ℝ) * 15.0 * DEG2RAD),
            1.0 / Real.sin ((1000 : ℝ) * 1.0e-3 * ASEC2RAD) *
              Real.sin ((2 : ℝ) * DEG2RAD)⟩)) :=
  ⟨⟨by norm_num, (star_c4_parallax_sentinel 1 2 3 4 (-1.0) 5).1 (by norm_num)⟩,
    ⟨by norm_num, (star_c4_parallax_sentinel 1 2 3 4 1000 5).2 (by norm_num)⟩⟩

/-- C7 counterexample: the Star with `ra = 0, dec = 0, parallax = 1000` does
NOT have position `(1/sin(1e-3*ASEC2RAD), 0, 0)`: the code computes the
distance from `parallax * 1e-3 * ASEC2RAD = 1 * ASEC2RAD`, not
`1e-3 * ASEC2RAD`. -/
theorem star_c7_counterexample :
    (Star.make 0 0 0 0 1000 0)._position ≠
      (⟨1.0 / Real.sin (1.0e-3 * ASEC2RAD), 0, 0⟩ : Vec3) := by
  intro h
  have hx : 1.0 / Real.sin (peff 1000 * 1.0e-3 * ASEC2RAD) * Real.cos ((0:ℝ) * DEG2RAD) *
      Real.cos ((0:ℝ) * 15.0 * DEG2RAD) = 1.0 / Real.sin (1.0e-3 * ASEC2RAD) :=
    congrArg Vec3.x h
  have hpe : peff (1000:ℝ) = 1000 := by
    rw [peff, if_neg]
    norm_num
  have harg : (1000:ℝ) * 1.0e-3 * ASEC2RAD = ASEC2RAD := by norm_num
  rw [hpe, harg] at hx
  simp only [zero_mul, Real.cos_zero, mul_one] at hx
  have hs2 : 0 < Real.sin (1.0e-3 * ASEC2RAD) := by
    apply sin_pos_of_lt_three <;> norm_num [ASEC2RAD]
  have hlt : Real.sin (1.0e-3 * ASEC2RAD) < Real.sin ASEC2RAD := by
    apply sin_lt_sin_of_small <;> norm_num [ASEC2RAD]
  have hgt : 1.0 / Real.sin ASEC2RAD < 1.0 / Real.sin (1.0e-3 * ASEC2RAD) := by
    apply div_lt_div_of_pos_left (by norm_num) hs2 hlt
  rw [hx] at hgt
  exact lt_irrefl _ hgt

/-- C7 amended: the Star with `ra = 0, dec = 0, parallax = 1000` has cached
position exactly `(dist, 0, 0)` with `dist = 1/sin(1000*1e-3*ASEC2RAD)`
(one arcsecond, about one parsec). -/
theorem star_c7_amended :
    (Star.make 0 0 0 0 1000 0)._position =
      (⟨1.0 / Real.sin ((1000:ℝ) * 1.0e-3 * ASEC2RAD), 0, 0⟩ : Vec3) := by
  rw [make_position_eq]
  have hpe : peff (1000:ℝ) = 1000 := by
    rw [peff, if_neg]
    norm_num
  rw [hpe]
  simp [Real.cos_zero, Real.sin_zero]

lemma distance_velocity_zero (ext : Externals) (s : Star) (jd : JulianDate)
    (hv : s._velocity = ⟨0, 0, 0⟩) :
    (observeFrom ext s ⟨⟨0, 0, 0⟩, ⟨0, 0, 0⟩, jd⟩).distance =
      Real.sqrt (Vec3.dot s._position s._position) := by
  simp only [observeFrom, hv]
  congr 1
  simp [Vec3.add, Vec3.sub, Vec3.scale, Vec3.dot]

lemma sqrt_dot_of_unit (dist r d : ℝ) (h0 : 0 ≤ dist) :
    Real.sqrt (Vec3.dot
      ⟨dist * Real.cos d * Real.cos r, dist * Real.cos d * Real.sin r, dist * Real.sin d⟩
      ⟨dist * Real.cos d * Real.cos r, dist * Real.cos d * Real.sin r, dist * Real.sin d⟩) =
      dist := by
  have key : Vec3.dot
      (⟨dist * Real.cos d * Real.cos r, dist * Real.cos d * Real.sin r,
        dist * Real.sin d⟩ : Vec3)
      ⟨dist * Real.cos d * Real.cos r, dist * Real.cos d * Real.sin r, dist * Real.sin d⟩ =
      dist ^ 2 := by
    simp only [Vec3.dot]
    linear_combination dist ^ 2 * Real.cos d ^ 2 * Real.sin_sq_add_cos_sq r +
      dist ^ 2 * Real.sin_sq_add_cos_sq d
  rw [key, Real.sqrt_sq h0]

lemma star6_distance (ext : Externals) (jd : JulianDate) :
    (observeFrom ext (Star.make 6 0 0 0 0 0) ⟨⟨0, 0, 0⟩, ⟨0, 0, 0⟩, jd⟩).distance =
      1.0 / Real.sin (1.0e-6 * 1.0e-3 * ASEC2RAD) := by
  rw [distance_velocity_zero ext (Star.make 6 0 0 0 0 0) jd (velocity_zero_of_no_motion 6 0 0)]
  have hpe : peff (0:ℝ) = 1.0e-6 := by rw [peff, if_pos le_rfl]
  have hs : 0 < Real.sin (1.0e-6 * 1.0e-3 * ASEC2RAD) := by
    apply sin_pos_of_lt_three <;> norm_num [ASEC2RAD]
  rw [make_position_eq, hpe]
  exact sqrt_dot_of_unit _ ((6:ℝ) * 15.0 * DEG2RAD) ((0:ℝ) * DEG2RAD)
    (le_of_lt (by positivity))

/-- C6 counterexample: for `Star(ra=6, dec=0, parallax=0)` observed from rest
at the origin with `jd.tdb = T0`, the resulting distance exceeds `1e13` AU
(the sentinel parallax `1e-6` mas puts the star at about one gigaparsec,
`1/sin(1e-9*ASEC2RAD) ≈ 2.0626e14` AU), while the claimed value
`1/sin(1e-3*ASEC2RAD)` is below `1e9` AU — so the two are no way close. -/
theorem star_c6_counterexample :
    1.0e13 <
      (observeFrom ⟨2451545.0, fun _ _ => 0.0⟩ (Star.make 6 0 0 0 0 0)
        ⟨⟨0, 0, 0⟩, ⟨0, 0, 0⟩, ⟨2451545.0⟩⟩).distance ∧
    1.0 / Real.sin (1.0e-3 * ASEC2RAD) < 1.0e9 := by
  constructor
  · rw [star6_distance ⟨2451545.0, fun _ _ => 0.0⟩ ⟨2451545.0⟩]
    have hs : 0 < Real.sin (1.0e-6 * 1.0e-3 * ASEC2RAD) := by
      apply sin_pos_of_lt_three <;> norm_num [ASEC2RAD]
    have hub : Real.sin (1.0e-6 * 1.0e-3 * ASEC2RAD) < 1.0e-14 :=
      calc Real.sin (1.0e-6 * 1.0e-3 * ASEC2RAD) < 1.0e-6 * 1.0e-3 * ASEC2RAD :=
            Real.sin_lt (by norm_num [ASEC2RAD])
        _ < 1.0e-14 := by norm_num [ASEC2RAD]
    rw [lt_div_iff₀ hs]
    nlinarith
  · have hs : 0 < Real.sin (1.0e-3 * ASEC2RAD) := by
      apply sin_pos_of_lt_three <;> norm_num [ASEC2RAD]
    have hlb : (1.0e-9 : ℝ) < Real.sin (1.0e-3 * ASEC2RAD) :=
      calc (1.0e-9 : ℝ) < 1.0e-3 * ASEC2RAD - (1.0e-3 * ASEC2RAD) ^ 3 / 4 := by
            norm_num [ASEC2RAD]
        _ < Real.sin (1.0e-3 * ASEC2RAD) :=
            Real.sin_gt_sub_cube (by norm_num [ASEC2RAD]) (by norm_num [ASEC2RAD])
    rw [div_lt_iff₀ hs]
    nlinarith

/-- C6 amended: `Star(ra=6, dec=0, parallax=0)` observed from an observer at
rest at the origin with `jd.tdb = T0` yields distance exactly
`1/sin(1e-6 * 1e-3 * ASEC2RAD)` (the sentinel parallax; about `2.0626e14` AU,
one gigaparsec) and `lighttime = distance / 173.1446326846693` days. -/
theorem star_c6_amended (ext : Externals) :
    (observeFrom ext (Star.make 6 0 0 0 0 0)
        ⟨⟨0, 0, 0⟩, ⟨0, 0, 0⟩, ⟨ext.T0⟩⟩).distance =
      1.0 / Real.sin (1.0e-6 * 1.0e-3 * ASEC2RAD) ∧
    (observeFrom ext (Star.make 6 0 0 0 0 0)
        ⟨⟨0, 0, 0⟩, ⟨0, 0, 0⟩, ⟨ext.T0⟩⟩).lighttime =
      (observeFrom ext (Star.make 6 0 0 0 0 0)
        ⟨⟨0, 0, 0⟩, ⟨0, 0, 0⟩, ⟨ext.T0⟩⟩).distance / 173.1446326846693 :=
  ⟨star6_distance ext ⟨ext.T0⟩, rfl⟩

lemma real_sign_mul (a b : ℝ) : Real.sign (a * b) = Real.sign a * Real.sign b := by
  rcases lt_trichotomy a 0 with ha | ha | ha
  · rcases lt_trichotomy b 0 with hb | hb | hb
    · rw [Real.sign_of_pos (mul_pos_of_neg_of_neg ha hb), Real.sign_of_neg ha,
        Real.sign_of_neg hb]
      norm_num
    · rw [hb, mul_zero, Real.sign_zero, mul_zero]
    · rw [Real.sign_of_neg (mul_neg_of_neg_of_pos ha hb), Real.sign_of_neg ha,
        Real.sign_of_pos hb]
      norm_num
  · rw [ha, zero_mul, Real.sign_zero, zero_mul]
  · rcases lt_trichotomy b 0 with hb | hb | hb
    · rw [Real.sign_of_neg (mul_neg_of_pos_of_neg ha hb), Real.sign_of_pos ha,
        Real.sign_of_neg hb]
      norm_num
    · rw [hb, mul_zero, Real.sign_zero, mul_zero]
    · rw [Real.sign_of_pos (mul_pos ha hb), Real.sign_of_pos ha, Real.sign_of_pos hb]
      norm_num

lemma dopplerDenom_pos {v : ℝ} (hv : v * 1000.0 < C) : 0 < dopplerDenom v := by
  have hC : (0:ℝ) < C := by norm_num [C]
  have h2 : v / C * 1000.0 < 1 := by
    rw [div_mul_eq_mul_div, div_lt_one hC]
    exact hv
  rw [dopplerDenom]
  linarith

lemma kFactor_pos {v : ℝ} (hv : v * 1000.0 < C) : 0 < kFactor v := by
  rw [kFactor]
  exact div_pos (by norm_num) (dopplerDenom_pos hv)

lemma rvlOf_neg_of_neg {v : ℝ} (hv : v < 0) (hk : 0 < kFactor v) : rvlOf v < 0 := by
  rw [rvlOf]
  apply mul_neg_of_neg_of_pos _ hk
  exact div_neg_of_neg_of_pos (mul_neg_of_neg_of_pos hv (by norm_num)) (by norm_num [AU_KM])

lemma rvlOf_pos_of_pos {v : ℝ} (hv : 0 < v) (hk : 0 < kFactor v) : 0 < rvlOf v := by
  rw [rvlOf]
  exact mul_pos (div_pos (mul_pos hv (by norm_num)) (by norm_num [AU_KM])) hk

lemma rvlOf_zero : rvlOf 0 = 0 := by
  rw [rvlOf]
  norm_num

lemma rvl_sign_flip {v : ℝ} (hv : |v| * 1000.0 < C) :
    Real.sign (rvlOf (-v)) = -Real.sign (rvlOf v) := by
  have hpos : v * 1000.0 < C :=
    lt_of_le_of_lt (mul_le_mul_of_nonneg_right (le_abs_self v) (by norm_num)) hv
  have hneg : -v * 1000.0 < C :=
    lt_of_le_of_lt (mul_le_mul_of_nonneg_right (neg_le_abs v) (by norm_num)) hv
  have hk1 := kFactor_pos hpos
  have hk2 := kFactor_pos hneg
  rcases lt_trichotomy v 0 with h0 | h0 | h0
  · rw [Real.sign_of_neg (rvlOf_neg_of_neg h0 hk1),
      Real.sign_of_pos (rvlOf_pos_of_pos (by linarith) hk2)]
    norm_num
  · simp [h0, rvlOf_zero]
  · rw [Real.sign_of_pos (rvlOf_pos_of_pos h0 hk1),
      Real.sign_of_neg (rvlOf_neg_of_neg (by linarith) hk2)]

/-- C8 counterexample: at `radial_velocity = 599584.916` km/s (twice the
speed of light in the code's unit handling), the Doppler factor changes sign
between the two runs, so the `rvl` contribution to the x velocity component
is negative for BOTH `+v` and `-v`: its sign is not flipped. -/
theorem star_c8_counterexample :
    ¬ (Real.sign ((rvlTerm 0 0 (-(599584.916:ℝ))).x) =
        -Real.sign ((rvlTerm 0 0 (599584.916:ℝ)).x)) := by
  have h1 : rvlOf (599584.916:ℝ) < 0 := by
    rw [rvlOf, kFactor, dopplerDenom]
    norm_num [AU_KM, C]
  have h2 : rvlOf (-(599584.916:ℝ)) < 0 := by
    rw [rvlOf, kFactor, dopplerDenom]
    norm_num [AU_KM, C]
  have hx1 : (rvlTerm 0 0 (599584.916:ℝ)).x = rvlOf (599584.916:ℝ) := by
    simp [rvlTerm]
  have hx2 : (rvlTerm 0 0 (-(599584.916:ℝ))).x = rvlOf (-(599584.916:ℝ)) := by
    simp [rvlTerm]
  rw [hx1, hx2, Real.sign_of_neg h1, Real.sign_of_neg h2]
  norm_num

/-- C8 amended: negating `radial_velocity` leaves the cached position vector
(and hence its magnitude) unchanged; the cached velocity decomposes into the
proper-motion summands plus the `rvl` summands; and when
`|radial_velocity| * 1000 < C` (both Doppler factors positive) the sign of
the `rvl` contribution to each velocity component is flipped.  Exact negation
of the `rvl` terms does not hold because the Doppler factor `k` itself
changes when `radial_velocity` changes sign. -/
theorem star_c8_amended (ra dec pm_ra pm_dec parallax v : ℝ) :
    (Star.make ra dec pm_ra pm_dec parallax (-v))._position =
      (Star.make ra dec pm_ra pm_dec parallax v)._position ∧
    (∀ w : ℝ, (Star.make ra dec pm_ra pm_dec parallax w)._velocity =
      Vec3.add (pmTerm ra dec pm_ra pm_dec parallax w) (rvlTerm ra dec w)) ∧
    (|v| * 1000.0 < C →
      Real.sign ((rvlTerm ra dec (-v)).x) = -Real.sign ((rvlTerm ra dec v).x) ∧
      Real.sign ((rvlTerm ra dec (-v)).y) = -Real.sign ((rvlTerm ra dec v).y) ∧
      Real.sign ((rvlTerm ra dec (-v)).z) = -Real.sign ((rvlTerm ra dec v).z)) := by
  refine ⟨rfl, fun w => rfl, fun hv => ⟨?_, ?_, ?_⟩⟩
  · simp only [rvlTerm]
    rw [real_sign_mul, real_sign_mul, real_sign_mul, real_sign_mul, rvl_sign_flip hv]
    ring
  · simp only [rvlTerm]
    rw [real_sign_mul, real_sign_mul, real_sign_mul, real_sign_mul, rvl_sign_flip hv]
    ring
  · simp only [rvlTerm]
    rw [real_sign_mul, real_sign_mul, rvl_sign_flip hv]
    ring

theorem star_c8_amended_witness :
    |(10:ℝ)| * 1000.0 < C ∧
    (Real.sign ((rvlTerm 0 0 (-(10:ℝ))).x) = -Real.sign ((rvlTerm 0 0 (10:ℝ)).x) ∧
      Real.sign ((rvlTerm 0 0 (-(10:ℝ))).y) = -Real.sign ((rvlTerm 0 0 (10:ℝ)).y) ∧
      Real.sign ((rvlTerm 0 0 (-(10:ℝ))).z) = -Real.sign ((rvlTerm 0 0 (10:ℝ)).z)) :=
  ⟨by norm_num [C], (star_c8_amended 0 0 0 0 1000 10).2.2 (by norm_num [C])⟩

/-- C10 counterexample: in exact real arithmetic, a strictly positive
effective parallax does not guarantee a nonzero sine: at
`parallax = π/(1e-3*ASEC2RAD)` (with `radial_velocity = 0`, so
`radial_velocity*1000 ≠ C` holds) the distance denominator
`sin(p_eff*1e-3*ASEC2RAD)` is exactly `sin π = 0`. -/
theorem star_c10_counterexample :
    (0:ℝ) * 1000.0 ≠ C ∧
    Real.sin (peff (Real.pi / (1.0e-3 * ASEC2RAD)) * 1.0e-3 * ASEC2RAD) = 0 := by
  constructor
  · norm_num [C]
  · have hA : (0:ℝ) < 1.0e-3 * ASEC2RAD := by norm_num [ASEC2RAD]
    have hp : 0 < Real.pi / (1.0e-3 * ASEC2RAD) := div_pos Real.pi_pos hA
    rw [peff, if_neg (not_le.mpr hp), mul_assoc, div_mul_cancel₀ _ (ne_of_gt hA),
      Real.sin_pi]

/-- C10 amended: if additionally the (substituted) parallax angle is below π
— true for every physically meaningful parallax, and for every Python float
input, since a float is never exactly a multiple of π — all construction-time
denominators are nonzero: the effective parallax is strictly positive, so
`sin(p_eff*1e-3*ASEC2RAD) ≠ 0` and `p_eff*365.25 ≠ 0`, and the Doppler
denominator `1 - radial_velocity/C*1000` vanishes exactly when
`radial_velocity * 1000 = C`. -/
theorem star_c10_amended (parallax radial_velocity : ℝ)
    (h : peff parallax * 1.0e-3 * ASEC2RAD < Real.pi) :
    Real.sin (peff parallax * 1.0e-3 * ASEC2RAD) ≠ 0 ∧
    peff parallax * 365.25 ≠ 0 ∧
    (dopplerDenom radial_velocity = 0 ↔ radial_velocity * 1000.0 = C) := by
  have hp : 0 < peff parallax := by
    rcases le_or_lt parallax 0 with h0 | h0
    · rw [peff, if_pos h0]
      norm_num
    · rw [peff, if_neg (not_le.mpr h0)]
      exact h0
  have hC : (0:ℝ) < C := by norm_num [C]
  refine ⟨?_, ?_, ?_⟩
  · exact ne_of_gt (Real.sin_pos_of_pos_of_lt_pi
      (mul_pos (mul_pos hp (by norm_num)) (by norm_num [ASEC2RAD])) h)
  · exact ne_of_gt (mul_pos hp (by norm_num))
  · rw [dopplerDenom]
    constructor
    · intro h0
      have h1 : radial_velocity / C * 1000.0 * C = 1.0 * C := by
        rw [show radial_velocity / C * 1000.0 = 1.0 from by linarith]
      rw [div_mul_eq_mul_div, div_mul_cancel₀ _ (ne_of_gt hC)] at h1
      linarith
    · intro h0
      rw [div_mul_eq_mul_div, h0, div_self (ne_of_gt hC)]
      norm_num

theorem star_c10_amended_witness :
    peff 0 * 1.0e-3 * ASEC2RAD < Real.pi ∧
    (Real.sin (peff 0 * 1.0e-3 * ASEC2RAD) ≠ 0 ∧
      peff 0 * 365.25 ≠ 0 ∧
      (dopplerDenom 0 = 0 ↔ (0:ℝ) * 1000.0 = C)) := by
  have h : peff (0:ℝ) * 1.0e-3 * ASEC2RAD < Real.pi := by
    have hpe : peff (0:ℝ) = 1.0e-6 := by rw [peff, if_pos le_rfl]
    have h3 : (1.0e-6:ℝ) * 1.0e-3 * ASEC2RAD < 3 := by norm_num [ASEC2RAD]
    rw [hpe]
    linarith [Real.pi_gt_three]
  exact ⟨h, star_c10_amended 0 0 h⟩

end Starlib
